import Mathlib

/-!
Shallow embedding of `catalog/views.py` of the django_local_library repository.

The database is modelled as lists of plain records; querysets become list
filters and sorts; the framework's generic views, auth mixins and session
middleware are modelled from the spec where their code is outside `src/`.
-/

/-- Dates are modelled as day counts, so `datetime.timedelta(weeks=3)` is `21`. -/
abbrev Date := Nat

abbrev UserId := Nat

/-- Modelled from the spec: `catalog/models.py` is not under `src/`. The spec (§3,
glossary) describes Book as a plain record; the fields used by the views are the
title (filtered with `title__icontains`) and the related genre names
(filtered with `genre__name__icontains`). -/
structure Book where
  id : Nat
  title : String
  genres : List String
  deriving DecidableEq

/-- Modelled from the spec: `catalog/models.py` is not under `src/`. Author fields
are the ones listed in the `fields` lists of the Author CRUD views. -/
structure Author where
  id : Nat
  first_name : String
  last_name : String
  date_of_birth : Option Date
  date_of_death : Option Date
  deriving DecidableEq

/-- Modelled from the spec: `catalog/models.py` is not under `src/`. The glossary says a
BookInstance is "a physical/loanable copy of a Book, with availability status and
optional due date/borrower"; the status is a one-character code compared against
'o' and 'a' in the views. -/
structure BookInstance where
  id : Nat
  book : Nat
  status : Char
  due_back : Option Date
  borrower : Option UserId
  deriving DecidableEq

/-- The relational state owned by the framework: one table per entity used by the views. -/
structure AppDB where
  books : List Book
  authors : List Author
  instances : List BookInstance
  deriving DecidableEq

/-- The requesting user as the framework's auth layer presents it: an anonymous
user has `authenticated = false`; permissions are dotted strings. -/
structure User where
  authenticated : Bool
  perms : List String
  uid : UserId
  deriving DecidableEq

/-- Embeds `user.has_perm`: an anonymous user holds no permission. -/
def hasPerm (u : User) (p : String) : Bool :=
  u.authenticated && u.perms.contains p

/-- Character-list prefix test used to embed the ORM `icontains` lookup. -/
def matchesAt : List Char → List Char → Bool
  | [], _ => true
  | _ :: _, [] => false
  | p :: ps, c :: cs => p == c && matchesAt ps cs

/-- Contiguous-subsequence test on character lists. -/
def hasSeq : List Char → List Char → Bool
  | [], pat => pat.isEmpty
  | c :: t, pat => matchesAt pat (c :: t) || hasSeq t pat

/-- The ORM `icontains` lookup: case-insensitive substring containment. -/
def icontains (hay pat : String) : Bool :=
  hasSeq (hay.toList.map Char.toLower) (pat.toList.map Char.toLower)

/-- Ascending order on optional due dates (a missing due date sorts first). -/
def dueLe (a b : Option Date) : Bool :=
  match a, b with
  | none, _ => true
  | some _, none => false
  | some x, some y => decide (x ≤ y)

/-- Comparison used by `order_by('due_back')` on BookInstance rows. -/
def biLe (a b : BookInstance) : Bool :=
  dueLe a.due_back b.due_back

/-- Embeds `order_by('due_back')`: a stable sort of the queryset by due date. -/
def order_by_due_back (l : List BookInstance) : List BookInstance :=
  l.mergeSort biLe

/-- Embeds `LoanedBooksByUserListView.get_queryset` (views.py lines 106-107):
`BookInstance.objects.filter(borrower=self.request.user).filter(status__exact='o').order_by('due_back')`. -/
def LoanedBooksByUserListView.get_queryset (db : AppDB) (u : User) : List BookInstance :=
  order_by_due_back
    ((db.instances.filter (fun bi => bi.borrower == some u.uid)).filter
      (fun bi => bi.status == 'o'))

/-- Embeds `LoanedBooksListView.get_queryset` (views.py lines 116-117):
`BookInstance.objects.filter(status__exact='o').order_by('due_back')`. -/
def LoanedBooksListView.get_queryset (db : AppDB) : List BookInstance :=
  order_by_due_back (db.instances.filter (fun bi => bi.status == 'o'))

/-- Embeds `BookListView.get_queryset` (views.py lines 52-53): `Book.objects.all()`. -/
def BookListView.get_queryset (db : AppDB) : List Book :=
  db.books

/-- Embeds `AuthorListView.get_queryset` (views.py lines 79-80): `Author.objects.all()`. -/
def AuthorListView.get_queryset (db : AppDB) : List Author :=
  db.authors

/-- Embeds `BookListView.paginate_by` (views.py line 64). -/
def BookListView.paginate_by : Nat := 10

/-- Embeds `AuthorListView.paginate_by` (views.py line 90). -/
def AuthorListView.paginate_by : Nat := 10

/-- Embeds `LoanedBooksByUserListView.paginate_by` (views.py line 104). -/
def LoanedBooksByUserListView.paginate_by : Nat := 10

/-- Embeds `LoanedBooksListView.paginate_by` (views.py line 114). -/
def LoanedBooksListView.paginate_by : Nat := 10

/-- Modelled from the spec: the framework paginator slices the queryset into pages
of `per` items; page numbers start at 1. -/
def paginate (per page : Nat) (l : List α) : List α :=
  (l.drop ((page - 1) * per)).take per

/-- An HTTP response as the views produce it: a redirect to the login page, a 403,
a 404, a named-URL redirect, or a rendered template with its context. -/
inductive Response (α : Type) where
  | redirectToLogin
  | forbidden
  | notFound
  | redirect (urlName : String)
  | render (template : String) (context : α)
  deriving DecidableEq

/-- Holds (`true`) exactly on the two access-denial responses (login redirect and 403). -/
def Response.isDenial : Response α → Bool
  | Response.redirectToLogin => true
  | Response.forbidden => true
  | _ => false

/-- A value stored under one key of a template context. -/
inductive CtxVal where
  | books (l : List Book)
  | authors (l : List Author)
  | instances (l : List BookInstance)
  | book (b : Book)
  | author (a : Author)
  | num (n : Nat)
  | flag (b : Bool)
  deriving DecidableEq

/-- A template context: insertion-ordered key/value pairs, as a Python dict. -/
abbrev Ctx := List (String × CtxVal)

/-- Modelled from the spec: the context the unmodified generic `ListView` produces —
the page of objects under `object_list` and under the view's
`context_object_name`, plus pagination data. -/
def listViewBaseContext (ctxName : String) (pageItems : CtxVal) (page : Nat)
    (isPaginated : Bool) : Ctx :=
  [("object_list", pageItems), (ctxName, pageItems),
   ("page_obj", CtxVal.num page), ("is_paginated", CtxVal.flag isPaginated)]

/-- Modelled from the spec: the context the unmodified generic `DetailView` produces —
the object under `object` and under its model name. -/
def detailViewBaseContext (modelName : String) (obj : CtxVal) : Ctx :=
  [("object", obj), (modelName, obj)]

/-- Embeds `BookListView.get_context_data` (views.py lines 56-61): the base `ListView` context
with one extra key, `data`, holding the first five books whose titles contain
"the" (`Book.objects.filter(title__icontains='the')[:5]`). -/
def BookListView.get_context_data (db : AppDB) (page : Nat) : Ctx :=
  listViewBaseContext "book_list"
      (CtxVal.books (paginate BookListView.paginate_by page (BookListView.get_queryset db)))
      page
      (decide (BookListView.paginate_by < (BookListView.get_queryset db).length))
    ++ [("data", CtxVal.books ((db.books.filter (fun b => icontains b.title "the")).take 5))]

/-- Embeds `AuthorListView.get_context_data` (views.py lines 83-87): calls the base
implementation and returns its context unchanged. -/
def AuthorListView.get_context_data (db : AppDB) (page : Nat) : Ctx :=
  listViewBaseContext "author_list"
    (CtxVal.authors (paginate AuthorListView.paginate_by page (AuthorListView.get_queryset db)))
    page
    (decide (AuthorListView.paginate_by < (AuthorListView.get_queryset db).length))

/-- Embeds `BookDetailView` (views.py lines 67-71): no override, the base `DetailView` context. -/
def BookDetailView.get_context_data (b : Book) : Ctx :=
  detailViewBaseContext "book" (CtxVal.book b)

/-- Embeds `AuthorDetailView` (views.py lines 93-97): no override, the base `DetailView` context. -/
def AuthorDetailView.get_context_data (a : Author) : Ctx :=
  detailViewBaseContext "author" (CtxVal.author a)

/-- Embeds `LoanedBooksByUserListView` (views.py lines 100-107): no `get_context_data`
override, the base `ListView` context over its queryset. -/
def LoanedBooksByUserListView.get_context_data (db : AppDB) (u : User) (page : Nat) : Ctx :=
  listViewBaseContext "bookinstance_list"
    (CtxVal.instances (paginate LoanedBooksByUserListView.paginate_by page
      (LoanedBooksByUserListView.get_queryset db u)))
    page
    (decide (LoanedBooksByUserListView.paginate_by <
      (LoanedBooksByUserListView.get_queryset db u).length))

/-- Embeds `LoanedBooksListView` (views.py lines 110-117): no `get_context_data` override,
the base `ListView` context over its queryset. -/
def LoanedBooksListView.get_context_data (db : AppDB) (page : Nat) : Ctx :=
  listViewBaseContext "bookinstance_list"
    (CtxVal.instances (paginate LoanedBooksListView.paginate_by page
      (LoanedBooksListView.get_queryset db)))
    page
    (decide (LoanedBooksListView.paginate_by < (LoanedBooksListView.get_queryset db).length))

/-- Modelled from the spec (§7): `LoginRequiredMixin` answers an unauthenticated
request with a redirect to the login page and otherwise runs the view. -/
def loginRequired (u : User) (handler : Response α) : Response α :=
  if u.authenticated then handler else Response.redirectToLogin

/-- Modelled from the spec (§7): `PermissionRequiredMixin` runs the view when the user
holds the permission, answers 403 to an authenticated user lacking it, and redirects
an anonymous user to the login page. -/
def permissionRequired (perm : String) (u : User) (handler : Response α) : Response α :=
  if hasPerm u perm then handler
  else if u.authenticated then Response.forbidden
  else Response.redirectToLogin

/-- Embeds `LoanedBooksByUserListView` dispatch (views.py line 100): `LoginRequiredMixin`
guarding the rendered list. -/
def LoanedBooksByUserListView.view (db : AppDB) (u : User) (page : Nat) : Response Ctx :=
  loginRequired u
    (Response.render "book/bookinstance_list_borrowed_user.html"
      (LoanedBooksByUserListView.get_context_data db u page))

/-- Embeds `LoanedBooksListView` dispatch (views.py lines 110-111): `PermissionRequiredMixin`
with `catalog.can_mark_returned` guarding the rendered list. -/
def LoanedBooksListView.view (db : AppDB) (u : User) (page : Nat) : Response Ctx :=
  permissionRequired "catalog.can_mark_returned" u
    (Response.render "book/bookinstance_list_borrowed.html"
      (LoanedBooksListView.get_context_data db page))

/-- The request method reaching `renew_book_librarian`: a GET, or a POST carrying the
submitted `due_back` date. -/
inductive HttpMethod where
  | get
  | post (due_back : Date)
  deriving DecidableEq

/-- The renewal form as the template sees it: its `due_back` value (initial on GET,
bound on POST), whether it is bound, and whether it carries validation errors. -/
structure RenewForm where
  due_back : Date
  bound : Bool
  errors : Bool
  deriving DecidableEq

/-- The context of `book/book_renew.html` (views.py lines 145-148). -/
structure RenewCtx where
  form : RenewForm
  book_instance : BookInstance
  deriving DecidableEq

/-- Embeds `book_instance.save()` after `book_instance.due_back = form.cleaned_data['due_back']`:
the row with primary key `pk` gets the new due date. -/
def updateInstance (l : List BookInstance) (pk : Nat) (d : Date) : List BookInstance :=
  l.map (fun bi => if bi.id == pk then { bi with due_back := some d } else bi)

/-- Embeds `renew_book_librarian` (views.py lines 120-150). The `@login_required` decorator
redirects anonymous users to login; `@permission_required(..., raise_exception=True)`
answers 403; `get_object_or_404` answers 404 when no BookInstance has the pk. A valid
POST saves the submitted date and redirects to `all-borrowed`; an invalid POST falls
through to re-render the bound form; a GET renders the form with initial due date
`today + 3 weeks`. `is_valid` is the form's validation — modelled from the spec, since
`catalog/forms.py` (`RenewBookModelForm`) is not under `src/`: the spec says the form
"rejects a due date outside the allowed range", so validity is kept abstract. -/
def renew_book_librarian (is_valid : Date → Bool) (today : Date) (u : User) (db : AppDB)
    (pk : Nat) (method : HttpMethod) : Response RenewCtx × AppDB :=
  if u.authenticated then
    if hasPerm u "catalog.can_mark_returned" then
      match db.instances.find? (fun bi => bi.id == pk) with
      | none => (Response.notFound, db)
      | some book_instance =>
        match method with
        | HttpMethod.post d =>
          if is_valid d then
            (Response.redirect "all-borrowed",
             { db with instances := updateInstance db.instances pk d })
          else
            (Response.render "book/book_renew.html"
               { form := { due_back := d, bound := true, errors := true },
                 book_instance := book_instance }, db)
        | HttpMethod.get =>
          (Response.render "book/book_renew.html"
             { form := { due_back := today + 21, bound := false, errors := false },
               book_instance := book_instance }, db)
    else (Response.forbidden, db)
  else (Response.redirectToLogin, db)

/-- Embeds `BookCreate` (views.py lines 173-176): a generic `CreateView` on Book with no auth
mixin; the created-object semantics are modelled from the spec (generic CRUD:
save the record, redirect to the new object). The request's user is a parameter the
view never consults. -/
def BookCreate.view (u : User) (db : AppDB) (b : Book) : Response Ctx × AppDB :=
  (Response.redirect "book-detail", { db with books := db.books ++ [b] })

/-- Embeds `BookUpdate` (views.py lines 179-182): a generic `UpdateView` on Book with no auth
mixin; 404 when no Book has the pk, else save and redirect. Modelled from the spec for
the generic parts; the user is never consulted. -/
def BookUpdate.view (u : User) (db : AppDB) (pk : Nat) (b : Book) : Response Ctx × AppDB :=
  match db.books.find? (fun x => x.id == pk) with
  | none => (Response.notFound, db)
  | some _ =>
    (Response.redirect "book-detail",
     { db with books := db.books.map (fun x => if x.id == pk then b else x) })

/-- Embeds `BookDelete` (views.py lines 184-187): a generic `DeleteView` whose `model` line
names `Author`, with `success_url = reverse_lazy('books')` and no auth mixin: it looks
up and deletes an Author row, 404 when no Author has the pk, and redirects to the
books list URL. The user is never consulted. -/
def BookDelete.view (u : User) (db : AppDB) (pk : Nat) : Response Ctx × AppDB :=
  match db.authors.find? (fun a => a.id == pk) with
  | none => (Response.notFound, db)
  | some _ =>
    (Response.redirect "books", { db with authors := db.authors.filter (fun a => a.id != pk) })

/-- Embeds `AuthorCreate` (views.py lines 153-157): `PermissionRequiredMixin` with
`catalog.can_edit_authors` guarding a generic `CreateView` on Author. -/
def AuthorCreate.view (u : User) (db : AppDB) (a : Author) : Response Ctx × AppDB :=
  if hasPerm u "catalog.can_edit_authors" then
    (Response.redirect "author-detail", { db with authors := db.authors ++ [a] })
  else if u.authenticated then (Response.forbidden, db)
  else (Response.redirectToLogin, db)

/-- Embeds `AuthorUpdate` (views.py lines 160-164): `PermissionRequiredMixin` with
`catalog.can_edit_authors` guarding a generic `UpdateView` on Author. -/
def AuthorUpdate.view (u : User) (db : AppDB) (pk : Nat) (a : Author) : Response Ctx × AppDB :=
  if hasPerm u "catalog.can_edit_authors" then
    match db.authors.find? (fun x => x.id == pk) with
    | none => (Response.notFound, db)
    | some _ =>
      (Response.redirect "author-detail",
       { db with authors := db.authors.map (fun x => if x.id == pk then a else x) })
  else if u.authenticated then (Response.forbidden, db)
  else (Response.redirectToLogin, db)

/-- Embeds `AuthorDelete` (views.py lines 166-170): `PermissionRequiredMixin` with
`catalog.can_edit_authors` guarding a generic `DeleteView` on Author, redirecting to
the authors list on success. -/
def AuthorDelete.view (u : User) (db : AppDB) (pk : Nat) : Response Ctx × AppDB :=
  if hasPerm u "catalog.can_edit_authors" then
    match db.authors.find? (fun x => x.id == pk) with
    | none => (Response.notFound, db)
    | some _ =>
      (Response.redirect "authors",
       { db with authors := db.authors.filter (fun x => x.id != pk) })
  else if u.authenticated then (Response.forbidden, db)
  else (Response.redirectToLogin, db)

/-- The cookie-backed session: string keys to integers, as the spec's one-counter
session state needs. -/
abbrev Session := List (String × Nat)

/-- Embeds `request.session.get(k, d)`. -/
def sessionGet (s : Session) (k : String) (d : Nat) : Nat :=
  match s.lookup k with
  | some v => v
  | none => d

/-- Embeds `request.session[k] = v`. -/
def sessionSet (s : Session) (k : String) (v : Nat) : Session :=
  (k, v) :: s.filter (fun p => p.1 != k)

/-- The context of `index.html` (views.py lines 32-40). -/
structure IndexCtx where
  num_books : Nat
  num_instances : Nat
  num_instances_available : Nat
  num_authors : Nat
  num_genres_with_fantasy : Nat
  num_books_with_the : Nat
  num_visits : Nat
  deriving DecidableEq

/-- Embeds `index` (views.py lines 13-43): row counts, the session visit counter, and the
rendered template. The counter read is the pre-increment value; the session is then
written with that value plus one. -/
def index (db : AppDB) (session : Session) : Response IndexCtx × Session :=
  let num_books := db.books.length
  let num_instances := db.instances.length
  let num_instances_available := (db.instances.filter (fun bi => bi.status == 'a')).length
  let num_authors := db.authors.length
  let num_genres_with_fantasy :=
    (db.books.filter (fun b => b.genres.any (fun g => icontains g "fantasy"))).length
  let num_books_with_the := (db.books.filter (fun b => icontains b.title "the")).length
  let num_visits := sessionGet session "num_visits" 0
  let session1 := sessionSet session "num_visits" (num_visits + 1)
  (Response.render "index.html"
     { num_books := num_books, num_instances := num_instances,
       num_instances_available := num_instances_available, num_authors := num_authors,
       num_genres_with_fantasy := num_genres_with_fantasy,
       num_books_with_the := num_books_with_the, num_visits := num_visits }, session1)

/-- The `num_visits` value a response displays, when it renders a template. -/
def renderedVisits : Response IndexCtx → Option Nat
  | Response.render _ c => some c.num_visits
  | _ => none

theorem biLe_trans (a b c : BookInstance) (h1 : biLe a b) (h2 : biLe b c) : biLe a c := by
  cases ha : a.due_back <;> cases hb : b.due_back <;> cases hc : c.due_back <;>
    simp_all [biLe, dueLe]
  all_goals exact le_trans h1 h2

theorem biLe_total (a b : BookInstance) : biLe a b || biLe b a := by
  cases ha : a.due_back <;> cases hb : b.due_back <;> simp_all [biLe, dueLe]
  all_goals exact le_total _ _

/-- C1: the borrowed-books querysets contain only BookInstance rows with status 'o',
ordered ascending by due date, and the by-user queryset returns only rows borrowed by
the requesting user — never a row belonging to another user. -/
theorem c1_borrowed_querysets_filtered_and_sorted (db : AppDB) (u : User) :
    (∀ bi ∈ LoanedBooksByUserListView.get_queryset db u,
        bi.status = 'o' ∧ bi.borrower = some u.uid)
    ∧ (∀ bi ∈ LoanedBooksListView.get_queryset db, bi.status = 'o')
    ∧ (LoanedBooksByUserListView.get_queryset db u).Pairwise (fun a b => biLe a b = true)
    ∧ (LoanedBooksListView.get_queryset db).Pairwise (fun a b => biLe a b = true) := by
  refine ⟨?_, ?_, ?_, ?_⟩
  · intro bi hbi
    unfold LoanedBooksByUserListView.get_queryset order_by_due_back at hbi
    rw [List.mem_mergeSort] at hbi
    simp only [List.mem_filter, beq_iff_eq] at hbi
    exact ⟨hbi.2, hbi.1.2⟩
  · intro bi hbi
    unfold LoanedBooksListView.get_queryset order_by_due_back at hbi
    rw [List.mem_mergeSort] at hbi
    simp only [List.mem_filter, beq_iff_eq] at hbi
    exact hbi.2
  · exact List.sorted_mergeSort biLe_trans biLe_total _
  · exact List.sorted_mergeSort biLe_trans biLe_total _

def c1bi : BookInstance := { id := 1, book := 1, status := 'o', due_back := some 5, borrower := some 7 }

def c1db : AppDB := { books := [], authors := [], instances := [c1bi] }

def c1user : User := { authenticated := true, perms := [], uid := 7 }

theorem c1_borrowed_querysets_witness :
    c1bi.status = 'o' ∧ c1bi.borrower = some c1user.uid :=
  (c1_borrowed_querysets_filtered_and_sorted c1db c1user).1 c1bi (by
    simp [LoanedBooksByUserListView.get_queryset, order_by_due_back, c1db, c1bi, c1user])

/-- C2: the BookDelete view is configured with the Author model — a confirmed delete
through it looks up and deletes the Author row with the given pk (404 when no such
Author exists), leaves the Book table untouched, and on success redirects to the books
list URL. -/
theorem c2_bookDelete_deletes_author (u : User) (db : AppDB) (pk : Nat) :
    ((∃ a ∈ db.authors, a.id = pk) →
      BookDelete.view u db pk =
        (Response.redirect "books",
         { db with authors := db.authors.filter (fun a => a.id != pk) }))
    ∧ ((∀ a ∈ db.authors, a.id ≠ pk) →
      BookDelete.view u db pk = (Response.notFound, db))
    ∧ (BookDelete.view u db pk).2.books = db.books := by
  unfold BookDelete.view
  cases hf : db.authors.find? (fun a => a.id == pk) with
  | none =>
    refine ⟨?_, fun _ => rfl, rfl⟩
    rintro ⟨a, ha, rfl⟩
    have := List.find?_eq_none.mp hf a ha
    simp at this
  | some a =>
    refine ⟨fun _ => rfl, ?_, rfl⟩
    intro hall
    have hmem := List.mem_of_find?_eq_some hf
    have hp := List.find?_some hf
    simp only [beq_iff_eq] at hp
    exact absurd hp (hall a hmem)

def c2author : Author :=
  { id := 1, first_name := "Jane", last_name := "Doe", date_of_birth := none, date_of_death := none }

def c2db : AppDB := { books := [], authors := [c2author], instances := [] }

def c2user : User := { authenticated := false, perms := [], uid := 0 }

theorem c2_bookDelete_deletes_author_witness :
    BookDelete.view c2user c2db 1 =
      (Response.redirect "books",
       { c2db with authors := c2db.authors.filter (fun a => a.id != 1) }) :=
  (c2_bookDelete_deletes_author c2user c2db 1).1 ⟨c2author, by simp [c2db], by simp [c2author]⟩

/-- C3: an unauthenticated request to the my-borrowed view is answered with a redirect
to the login page, and a request by an authenticated user lacking
`catalog.can_mark_returned` to the all-borrowed view is answered with a 403. -/
theorem c3_borrowed_views_access_control (u : User) (db : AppDB) (page : Nat) :
    (u.authenticated = false →
      LoanedBooksByUserListView.view db u page = Response.redirectToLogin)
    ∧ (u.authenticated = true → u.perms.contains "catalog.can_mark_returned" = false →
      LoanedBooksListView.view db u page = Response.forbidden) := by
  constructor
  · intro h
    simp [LoanedBooksByUserListView.view, loginRequired, h]
  · intro h1 h2
    simp [LoanedBooksListView.view, permissionRequired, hasPerm, h1, h2]
    simpa using h2

theorem c3_borrowed_views_access_control_witness :
    LoanedBooksByUserListView.view { books := [], authors := [], instances := [] }
        { authenticated := false, perms := [], uid := 0 } 1 = Response.redirectToLogin
    ∧ LoanedBooksListView.view { books := [], authors := [], instances := [] }
        { authenticated := true, perms := [], uid := 0 } 1 = Response.forbidden :=
  ⟨(c3_borrowed_views_access_control
      { authenticated := false, perms := [], uid := 0 }
      { books := [], authors := [], instances := [] } 1).1 rfl,
   (c3_borrowed_views_access_control
      { authenticated := true, perms := [], uid := 0 }
      { books := [], authors := [], instances := [] } 1).2 rfl rfl⟩

/-- C4: on a POST to `renew_book_librarian` with an existing BookInstance pk by a
permitted user, a valid form saves the submitted date into the instance's due_back
field and redirects to the all-borrowed URL; an invalid form leaves the database
unchanged and re-renders the form bound with validation errors. -/
theorem c4_renew_post_valid_saves_invalid_rerenders (is_valid : Date → Bool) (today : Date)
    (u : User) (db : AppDB) (pk : Nat) (d : Date) (bi : BookInstance)
    (hauth : u.authenticated = true)
    (hperm : hasPerm u "catalog.can_mark_returned" = true)
    (hfind : db.instances.find? (fun b => b.id == pk) = some bi) :
    (is_valid d = true →
      renew_book_librarian is_valid today u db pk (HttpMethod.post d) =
        (Response.redirect "all-borrowed",
         { db with instances := updateInstance db.instances pk d }))
    ∧ (is_valid d = false →
      renew_book_librarian is_valid today u db pk (HttpMethod.post d) =
        (Response.render "book/book_renew.html"
           { form := { due_back := d, bound := true, errors := true },
             book_instance := bi }, db)) := by
  constructor <;> intro hv <;> simp [renew_book_librarian, hauth, hperm, hfind, hv]

def c4bi : BookInstance :=
  { id := 1, book := 1, status := 'o', due_back := some 30, borrower := some 7 }

def c4db : AppDB := { books := [], authors := [], instances := [c4bi] }

def c4user : User := { authenticated := true, perms := ["catalog.can_mark_returned"], uid := 3 }

theorem c4_renew_post_witness :
    renew_book_librarian (fun x => decide (x ≤ 100)) 9 c4user c4db 1 (HttpMethod.post 50) =
      (Response.redirect "all-borrowed",
       { c4db with instances := updateInstance c4db.instances 1 50 })
    ∧ renew_book_librarian (fun x => decide (x ≤ 100)) 9 c4user c4db 1 (HttpMethod.post 200) =
      (Response.render "book/book_renew.html"
         { form := { due_back := 200, bound := true, errors := true },
           book_instance := c4bi }, c4db) :=
  ⟨(c4_renew_post_valid_saves_invalid_rerenders (fun x => decide (x ≤ 100)) 9 c4user c4db 1 50
      c4bi rfl (by decide) (by simp [c4db, c4bi])).1 (by decide),
   (c4_renew_post_valid_saves_invalid_rerenders (fun x => decide (x ≤ 100)) 9 c4user c4db 1 200
      c4bi rfl (by decide) (by simp [c4db, c4bi])).2 (by decide)⟩

/-- C5: on a GET to `renew_book_librarian` with an existing BookInstance pk by a
permitted user, the rendered form's initial due_back value is the current date plus
exactly 3 weeks (21 days). -/
theorem c5_renew_get_initial_three_weeks (is_valid : Date → Bool) (today : Date)
    (u : User) (db : AppDB) (pk : Nat) (bi : BookInstance)
    (hauth : u.authenticated = true)
    (hperm : hasPerm u "catalog.can_mark_returned" = true)
    (hfind : db.instances.find? (fun b => b.id == pk) = some bi) :
    renew_book_librarian is_valid today u db pk HttpMethod.get =
      (Response.render "book/book_renew.html"
         { form := { due_back := today + 21, bound := false, errors := false },
           book_instance := bi }, db) := by
  simp [renew_book_librarian, hauth, hperm, hfind]

theorem c5_renew_get_initial_witness :
    renew_book_librarian (fun x => decide (x ≤ 100)) 9 c4user c4db 1 HttpMethod.get =
      (Response.render "book/book_renew.html"
         { form := { due_back := 9 + 21, bound := false, errors := false },
           book_instance := c4bi }, c4db) :=
  c5_renew_get_initial_three_weeks (fun x => decide (x ≤ 100)) 9 c4user c4db 1 c4bi
    rfl (by decide) (by simp [c4db, c4bi])

/-- C6: the Book create, update, and delete views carry no auth mixin: their behavior
is identical for any two requesting users, and they never answer with a login redirect
or a 403. -/
theorem c6_book_cud_ignores_user (u v : User) (db : AppDB) (b : Book) (pk : Nat) :
    BookCreate.view u db b = BookCreate.view v db b
    ∧ BookUpdate.view u db pk b = BookUpdate.view v db pk b
    ∧ BookDelete.view u db pk = BookDelete.view v db pk
    ∧ (BookCreate.view u db b).1.isDenial = false
    ∧ (BookUpdate.view u db pk b).1.isDenial = false
    ∧ (BookDelete.view u db pk).1.isDenial = false := by
  refine ⟨rfl, rfl, rfl, rfl, ?_, ?_⟩
  · unfold BookUpdate.view
    cases db.books.find? (fun x => x.id == pk) <;> rfl
  · unfold BookDelete.view
    cases db.authors.find? (fun a => a.id == pk) <;> rfl

/-- C7: each list view paginates with the fixed constant 10, so a page of items holds
at most 10 entries. -/
theorem c7_list_views_page_at_most_ten (db : AppDB) (u : User) (page : Nat) :
    BookListView.paginate_by = 10
    ∧ (paginate BookListView.paginate_by page (BookListView.get_queryset db)).length ≤ 10
    ∧ AuthorListView.paginate_by = 10
    ∧ (paginate AuthorListView.paginate_by page (AuthorListView.get_queryset db)).length ≤ 10
    ∧ LoanedBooksByUserListView.paginate_by = 10
    ∧ (paginate LoanedBooksByUserListView.paginate_by page
        (LoanedBooksByUserListView.get_queryset db u)).length ≤ 10
    ∧ LoanedBooksListView.paginate_by = 10
    ∧ (paginate LoanedBooksListView.paginate_by page
        (LoanedBooksListView.get_queryset db)).length ≤ 10 := by
  refine ⟨rfl, ?_, rfl, ?_, rfl, ?_, rfl, ?_⟩ <;>
    exact List.length_take_le _ _

/-- C8: the Author create, update, and delete views are gated by
`catalog.can_edit_authors`: a user lacking it is denied (login redirect or 403) and the
database is left unchanged. -/
theorem c8_author_cud_requires_permission (u : User) (db : AppDB) (a : Author) (pk : Nat)
    (h : hasPerm u "catalog.can_edit_authors" = false) :
    (AuthorCreate.view u db a).1.isDenial = true
    ∧ (AuthorCreate.view u db a).2 = db
    ∧ (AuthorUpdate.view u db pk a).1.isDenial = true
    ∧ (AuthorUpdate.view u db pk a).2 = db
    ∧ (AuthorDelete.view u db pk).1.isDenial = true
    ∧ (AuthorDelete.view u db pk).2 = db := by
  cases hu : u.authenticated <;>
    simp [AuthorCreate.view, AuthorUpdate.view, AuthorDelete.view, Response.isDenial, h, hu]

theorem c8_author_cud_requires_permission_witness :
    (AuthorCreate.view { authenticated := true, perms := [], uid := 0 } c2db c2author).1.isDenial = true
    ∧ (AuthorCreate.view { authenticated := true, perms := [], uid := 0 } c2db c2author).2 = c2db
    ∧ (AuthorUpdate.view { authenticated := true, perms := [], uid := 0 } c2db 1 c2author).1.isDenial = true
    ∧ (AuthorUpdate.view { authenticated := true, perms := [], uid := 0 } c2db 1 c2author).2 = c2db
    ∧ (AuthorDelete.view { authenticated := true, perms := [], uid := 0 } c2db 1).1.isDenial = true
    ∧ (AuthorDelete.view { authenticated := true, perms := [], uid := 0 } c2db 1).2 = c2db :=
  c8_author_cud_requires_permission { authenticated := true, perms := [], uid := 0 }
    c2db c2author 1 (by decide)

def c9db : AppDB :=
  { books := [{ id := 1, title := "The Hobbit", genres := ["fantasy"] }],
    authors := [], instances := [] }

/-- C9 (counterexample): at a concrete database and page, the context BookListView
produces differs from the context the unmodified generic `ListView` would produce —
`get_context_data` adds the extra key `data`, so the claim that no list/detail view
adds context keys beyond the generic base is false. -/
theorem c9_bookListView_context_differs_from_base :
    (decide (BookListView.get_context_data c9db 1 =
      listViewBaseContext "book_list"
        (CtxVal.books (paginate BookListView.paginate_by 1 (BookListView.get_queryset c9db)))
        1 (decide (BookListView.paginate_by < (BookListView.get_queryset c9db).length)))) =
      false := by
  decide

/-- C9 (amended): every list/detail view except BookListView produces exactly the
context of the unmodified generic base view; BookListView produces the base context
with exactly one extra key, `data`, holding the first five books whose titles contain
"the". -/
theorem c9_contexts_equal_base_except_bookList (db : AppDB) (page : Nat) (b : Book)
    (a : Author) (u : User) :
    AuthorListView.get_context_data db page =
      listViewBaseContext "author_list"
        (CtxVal.authors (paginate AuthorListView.paginate_by page (AuthorListView.get_queryset db)))
        page (decide (AuthorListView.paginate_by < (AuthorListView.get_queryset db).length))
    ∧ BookDetailView.get_context_data b = detailViewBaseContext "book" (CtxVal.book b)
    ∧ AuthorDetailView.get_context_data a = detailViewBaseContext "author" (CtxVal.author a)
    ∧ LoanedBooksByUserListView.get_context_data db u page =
      listViewBaseContext "bookinstance_list"
        (CtxVal.instances (paginate LoanedBooksByUserListView.paginate_by page
          (LoanedBooksByUserListView.get_queryset db u)))
        page (decide (LoanedBooksByUserListView.paginate_by <
          (LoanedBooksByUserListView.get_queryset db u).length))
    ∧ LoanedBooksListView.get_context_data db page =
      listViewBaseContext "bookinstance_list"
        (CtxVal.instances (paginate LoanedBooksListView.paginate_by page
          (LoanedBooksListView.get_queryset db)))
        page (decide (LoanedBooksListView.paginate_by <
          (LoanedBooksListView.get_queryset db).length))
    ∧ BookListView.get_context_data db page =
      listViewBaseContext "book_list"
        (CtxVal.books (paginate BookListView.paginate_by page (BookListView.get_queryset db)))
        page (decide (BookListView.paginate_by < (BookListView.get_queryset db).length))
        ++ [("data", CtxVal.books ((db.books.filter (fun x => icontains x.title "the")).take 5))] :=
  ⟨rfl, rfl, rfl, rfl, rfl, rfl⟩

/-- C10: every request to the index view bumps the session counter `num_visits` by
exactly one (starting from 0 when the key is absent), and the context's `num_visits`
is the pre-increment value, so a fresh session's first visit displays 0. -/
theorem c10_index_counts_visits (db : AppDB) (s : Session) :
    sessionGet (index db s).2 "num_visits" 0 = sessionGet s "num_visits" 0 + 1
    ∧ renderedVisits (index db s).1 = some (sessionGet s "num_visits" 0)
    ∧ renderedVisits (index db []).1 = some 0 := by
  refine ⟨?_, rfl, rfl⟩
  simp [index, sessionGet, sessionSet, List.lookup]
